import Mathlib

/-!
Verification development for the SwasthAI chat frontend.

The definitions below are a shallow embedding of the conversation state
kept by the React component `App` (file `App.tsx`), the backend client
`chatAPI.sendMessage` (file `src/services/api.ts`) and the speech
recognition end handler (file `src/components/ChatArea.tsx`).

Modelling conventions:
- `Date.now()` readings and `new Date()` timestamps are natural numbers
  supplied explicitly (one field per clock reading, in source order).
- Message ids, produced in the source as `Date.now().toString()` and
  `(Date.now() + 1).toString()`, are modelled as the underlying naturals
  (`Nat.toString` is injective, so distinctness is preserved).
- The message map (a JavaScript object keyed by chat id, only ever read
  by key and updated by `{...prev, [chatId]: v}`, never iterated) is
  modelled as a function `Nat → Option (List Message)`.
- React functional state updates (`setX(prev => ...)`) are applied in
  program order to an explicit `AppState`; each handler invocation reads
  the state left by the previous one, matching the event-loop semantics
  described for distinct user events.
- The asynchronous send is split at its single `await` point into a
  synchronous prefix `sendPhase1` (through appending the loading
  placeholder) and two continuations `sendSuccess` / `sendFailure`
  (each including the `finally` clearing of `loadingChatId`).
-/

namespace SwasthAI

/-- Sender of a message: the `sender: 'user' | 'bot'` field. -/
inductive Sender where
  | user : Sender
  | bot : Sender
deriving DecidableEq, Repr

/-- A chat message, from the inline type in `App.tsx`
(`{ id; text; sender; timestamp; isLoading?; lang? }`).
An absent `isLoading` field is `false`; an absent `lang` is `none`. -/
structure Message where
  id : Nat
  text : String
  sender : Sender
  timestamp : Nat
  isLoading : Bool
  lang : Option String
deriving DecidableEq, Repr

/-- A chat summary entry, from `export interface Chat` in `App.tsx`. -/
structure Chat where
  id : Nat
  title : String
  lastMessage : String
  timestamp : Nat
deriving DecidableEq, Repr

/-- The conversation map: chat id to its ordered message sequence.
The source object is only read by key and updated by spread, never
iterated, so a function model is observationally faithful. -/
abbrev MsgMap := Nat → Option (List Message)

/-- The JavaScript object spread update `{...prev, [k]: v}`. -/
def setMsgs (m : MsgMap) (k : Nat) (v : List Message) : MsgMap :=
  fun q => if q = k then some v else m q

/-- The read pattern `prev[chatId] || []` (undefined defaults to `[]`). -/
def getMsgs (m : MsgMap) (k : Nat) : List Message :=
  (m k).getD []

/-- The appending update
`{...prev, [chatId]: [...(prev[chatId] || []), message]}` used for both
the user message and the loading placeholder in `handleSendMessage`. -/
def appendMessage (m : MsgMap) (k : Nat) (msg : Message) : MsgMap :=
  setMsgs m k (getMsgs m k ++ [msg])

/-- The state held by the `App` component:
`chats`, `activeChatId`, `messages`, `loadingChatId`. -/
structure AppState where
  chats : List Chat
  activeChatId : Option Nat
  messages : MsgMap
  loadingChatId : Option Nat

/-- One entry of the ternary chain inside the `setChats` call of
`handleSendMessage` (the chat summary update): a chat matching the id
whose title is still the default gets a derived title, the sent text as
last message and a fresh timestamp; a matching chat with a custom title
keeps its title; other chats are untouched. -/
def updateChatSummaryEntry (cid : Nat) (text : String) (ts : Nat)
    (chat : Chat) : Chat :=
  if chat.id = cid ∧ chat.title = "New Chat" then
    { chat with
        title := text.take 30 ++ (if text.length > 30 then "..." else "")
        lastMessage := text
        timestamp := ts }
  else if chat.id = cid then
    { chat with lastMessage := text, timestamp := ts }
  else
    chat

/-- The whole `setChats(prevChats => prevChats.map(...))` summary update. -/
def updateChatSummary (chats : List Chat) (cid : Nat) (text : String)
    (ts : Nat) : List Chat :=
  chats.map (updateChatSummaryEntry cid text ts)

/-- The clock readings consumed by one `handleSendMessage` invocation,
in source order: new chat id, new chat timestamp (only in the
no-active-chat branch), user message id, user message timestamp, the
summary update timestamp, the base of `loadingMessageId = Date.now() + 1`
and the loading message timestamp. -/
structure SendTimes where
  tChatId : Nat
  tChatTs : Nat
  tUserId : Nat
  tUserTs : Nat
  tTitleTs : Nat
  tLoadBase : Nat
  tLoadTs : Nat
deriving DecidableEq, Repr

/-- The user message built by `handleSendMessage`
(`{ id: Date.now().toString(), text, sender: 'user', timestamp }`). -/
def userMsgOf (T : SendTimes) (text : String) : Message :=
  ⟨T.tUserId, text, Sender.user, T.tUserTs, false, none⟩

/-- The loading placeholder
(`{ id: loadingMessageId, text: '', sender: 'bot', isLoading: true }`)
with `loadingMessageId = (Date.now() + 1).toString()`. -/
def loadingMsgOf (T : SendTimes) : Message :=
  ⟨T.tLoadBase + 1, "", Sender.bot, T.tLoadTs, true, none⟩

/-- The synchronous prefix of `handleSendMessage`, up to and including
the appending of the loading placeholder and `setLoadingChatId(chatId)`.
Returns the new state, the resolved chat id and the placeholder id. -/
def sendPhase1 (s : AppState) (text : String) (T : SendTimes) :
    AppState × Nat × Nat :=
  let step1 : AppState × Nat :=
    match s.activeChatId with
    | none =>
        let newChat : Chat := ⟨T.tChatId, "New Chat", "", T.tChatTs⟩
        ({ s with
            chats := newChat :: s.chats
            activeChatId := some newChat.id
            messages := setMsgs s.messages newChat.id [userMsgOf T text] },
         newChat.id)
    | some cid =>
        ({ s with messages := appendMessage s.messages cid (userMsgOf T text) },
         cid)
  let s1 := step1.1
  let cid := step1.2
  let s2 := { s1 with chats := updateChatSummary s1.chats cid text T.tTitleTs }
  let s3 := { s2 with
      messages := appendMessage s2.messages cid (loadingMsgOf T)
      loadingChatId := some cid }
  (s3, cid, T.tLoadBase + 1)

/-- The resolved bot message of the success branch
(`{ id: loadingMessageId, text: response.reply, sender: 'bot', timestamp,
lang: response.lang }`; no `isLoading` field, hence `false`). -/
def resolvedMsgOf (lid : Nat) (reply lang : String) (ts : Nat) : Message :=
  ⟨lid, reply, Sender.bot, ts, false, some lang⟩

/-- The success continuation of `handleSendMessage`: replace the
placeholder matched by its id, update the chat last message and
timestamp, and (from the `finally` block) clear `loadingChatId`. -/
def sendSuccess (s : AppState) (cid lid : Nat) (reply lang : String)
    (tBot tChat : Nat) : AppState :=
  let s1 := { s with
      messages := setMsgs s.messages cid
        ((getMsgs s.messages cid).map (fun (msg : Message) =>
          if msg.id = lid then resolvedMsgOf lid reply lang tBot else msg)) }
  let s2 := { s1 with
      chats := s1.chats.map (fun (chat : Chat) =>
        if chat.id = cid then
          { chat with lastMessage := reply, timestamp := tChat }
        else chat) }
  { s2 with loadingChatId := none }

/-- The user-facing error string built in the catch branch:
`Sorry, I encountered an error: X. Please make sure the backend server
is running.` where `X` is the thrown error message. -/
def errorText (errorMessage : String) : String :=
  "Sorry, I encountered an error: " ++ errorMessage ++
    ". Please make sure the backend server is running."

/-- The bot message the catch branch substitutes for the placeholder
(no `lang` field and no `isLoading` field). -/
def failedMsgOf (lid : Nat) (errorMessage : String) (ts : Nat) : Message :=
  ⟨lid, errorText errorMessage, Sender.bot, ts, false, none⟩

/-- The failure continuation of `handleSendMessage`: replace the
placeholder matched by its id with the error message; the chat summary
is not touched; the `finally` block clears `loadingChatId`. -/
def sendFailure (s : AppState) (cid lid : Nat) (errorMessage : String)
    (tBot : Nat) : AppState :=
  let s1 := { s with
      messages := setMsgs s.messages cid
        ((getMsgs s.messages cid).map (fun (msg : Message) =>
          if msg.id = lid then failedMsgOf lid errorMessage tBot else msg)) }
  { s1 with loadingChatId := none }

/-- The chat id a send resolves to: the active chat if any, otherwise
the freshly created chat id. -/
def targetChatId (s : AppState) (T : SendTimes) : Nat :=
  s.activeChatId.getD T.tChatId

/-- The messages already present in the target chat when a send starts
contributing messages: none when a chat is freshly created (its sequence
is seeded with just the user message), otherwise the active chat's
current sequence. -/
def priorMsgs (s : AppState) : List Message :=
  match s.activeChatId with
  | none => []
  | some cid => getMsgs s.messages cid

/-- Number of loading placeholders in a message sequence. -/
def countLoading (l : List Message) : Nat :=
  (l.filter (fun m => m.isLoading)).length

/-- Iterated synchronous prefixes of a sequence of sends, in call order. -/
def sendsPhase1Fold (s : AppState) : List (String × SendTimes) → AppState
  | [] => s
  | call :: rest => sendsPhase1Fold (sendPhase1 s call.1 call.2).1 rest

/-- The two messages one send call contributes synchronously. -/
def callMsgs (call : String × SendTimes) : List Message :=
  [userMsgOf call.2 call.1, loadingMsgOf call.2]

/-- Concatenation of a list of message lists. -/
def concatAll : List (List Message) → List Message
  | [] => []
  | l :: ls => l ++ concatAll ls

/-- The parsed backend payload, from `export interface ChatResponse`
in `src/services/api.ts`. -/
structure ChatResponse where
  reply : String
  lang : String
deriving DecidableEq, Repr

/-- Outcome of one `fetch` of `POST /chat`, as observed by
`chatAPI.sendMessage`: either a response with an HTTP status and the
result of reading its body as JSON (`Except.error` models a rejected
`response.json()`), or a rejected `fetch` carrying the message of the
thrown network error. -/
inductive FetchResult where
  | ok (status : Nat) (body : Except String ChatResponse) : FetchResult
  | networkError (message : String) : FetchResult

/-- The `response.ok` predicate of the fetch API: status 200 to 299. -/
def responseOk (status : Nat) : Bool :=
  200 ≤ status && status ≤ 299

/-- Shallow embedding of `chatAPI.sendMessage` over a fetch oracle
(call number to outcome; the source performs a single call, reading only
`fetch 0`). The non-ok branch throws `HTTP error! status: S`, and the
catch block rethrows every failure as a single normalized
`Failed to get response: X` message. -/
def chatAPISendMessage (fetch : Nat → FetchResult) :
    Except String ChatResponse :=
  match fetch 0 with
  | FetchResult.networkError m =>
      Except.error ("Failed to get response: " ++ m)
  | FetchResult.ok status body =>
      if responseOk status then
        match body with
        | Except.ok data => Except.ok data
        | Except.error e => Except.error ("Failed to get response: " ++ e)
      else
        Except.error
          ("Failed to get response: HTTP error! status: " ++ toString status)

/-- The recognition-tag to backend-language map of `ChatArea.tsx`
(`langMap[selectedLanguage] || 'en'` in `recognition.onend`). -/
def langMap (tag : String) : String :=
  if tag = "en-US" then "en"
  else if tag = "hi-IN" then "hi"
  else if tag = "te-IN" then "te"
  else "en"

/-- The JavaScript `String.prototype.trim`: remove leading and trailing
whitespace characters. -/
def jsTrim (s : String) : String :=
  ⟨((s.data.dropWhile Char.isWhitespace).reverse.dropWhile
      Char.isWhitespace).reverse⟩

/-- The recognition-related component state touched by
`recognition.onend`: the `isListening` flag, the `input` text box and
the accumulated final transcript `finalTranscriptRef.current`. -/
structure RecState where
  isListening : Bool
  input : String
  finalTranscript : String
deriving DecidableEq, Repr

/-- Shallow embedding of `recognition.onend`: stop listening; if the
trimmed accumulated transcript is non-empty, emit a send of it with the
mapped backend language, clear the input and the transcript buffer;
otherwise just clear the transcript buffer. The emitted send (performed
in the source inside a `setTimeout`) is returned as the second
component. -/
def recognitionOnEnd (st : RecState) (selectedLanguage : String) :
    RecState × Option (String × String) :=
  let st1 : RecState := { st with isListening := false }
  let transcriptToSend := jsTrim st.finalTranscript
  if transcriptToSend = "" then
    ({ st1 with finalTranscript := "" }, none)
  else
    ({ st1 with input := "", finalTranscript := "" },
     some (transcriptToSend, langMap selectedLanguage))

/-! Basic lemmas about the message map and the summary update. -/

theorem setMsgs_other (m : MsgMap) (k q : Nat) (v : List Message)
    (h : q ≠ k) : setMsgs m k v q = m q := by
  simp [setMsgs, h]

theorem getMsgs_setMsgs_self (m : MsgMap) (k : Nat) (v : List Message) :
    getMsgs (setMsgs m k v) k = v := by
  simp [getMsgs, setMsgs]

theorem getMsgs_appendMessage_self (m : MsgMap) (k : Nat) (msg : Message) :
    getMsgs (appendMessage m k msg) k = getMsgs m k ++ [msg] := by
  simp [appendMessage, getMsgs_setMsgs_self]

theorem updateChatSummaryEntry_id (cid : Nat) (text : String) (ts : Nat)
    (c : Chat) : (updateChatSummaryEntry cid text ts c).id = c.id := by
  unfold updateChatSummaryEntry
  split
  · rfl
  · split <;> rfl

theorem updateChatSummaryEntry_of_ne (cid : Nat) (text : String) (ts : Nat)
    (c : Chat) (h : c.id ≠ cid) : updateChatSummaryEntry cid text ts c = c := by
  simp [updateChatSummaryEntry, h]

theorem updateChatSummary_cons (c : Chat) (rest : List Chat) (cid : Nat)
    (text : String) (ts : Nat) :
    updateChatSummary (c :: rest) cid text ts
      = updateChatSummaryEntry cid text ts c :: updateChatSummary rest cid text ts :=
  rfl

theorem updateChatSummary_of_all_ne (cs : List Chat) (cid : Nat)
    (text : String) (ts : Nat) (h : ∀ c ∈ cs, c.id ≠ cid) :
    updateChatSummary cs cid text ts = cs := by
  induction cs with
  | nil => rfl
  | cons c rest ih =>
      rw [updateChatSummary_cons,
        updateChatSummaryEntry_of_ne _ _ _ _ (h c (by simp)),
        ih (fun x hx => h x (by simp [hx]))]

theorem map_resolve_of_fresh (l : List Message) (lid : Nat) (nm : Message)
    (h : ∀ m ∈ l, m.id ≠ lid) :
    l.map (fun (m : Message) => if m.id = lid then nm else m) = l := by
  induction l with
  | nil => rfl
  | cons a rest ih =>
      have ha : a.id ≠ lid := h a (by simp)
      simp only [List.map_cons, if_neg ha, ih (fun m hm => h m (by simp [hm]))]

theorem filter_id_nil_of_fresh (l : List Message) (lid : Nat)
    (h : ∀ m ∈ l, m.id ≠ lid) :
    l.filter (fun (m : Message) => m.id == lid) = [] := by
  induction l with
  | nil => rfl
  | cons a rest ih =>
      have ha : a.id ≠ lid := h a (by simp)
      simp only [List.filter_cons]
      rw [if_neg (by simpa using ha)]
      exact ih (fun m hm => h m (by simp [hm]))

theorem countLoading_append (a b : List Message) :
    countLoading (a ++ b) = countLoading a + countLoading b := by
  simp [countLoading, List.filter_append]

/-! Specification of the synchronous prefix of `handleSendMessage`. -/

theorem sendPhase1_spec (s : AppState) (text : String) (T : SendTimes) :
    (sendPhase1 s text T).2.1 = targetChatId s T ∧
    (sendPhase1 s text T).2.2 = T.tLoadBase + 1 ∧
    getMsgs (sendPhase1 s text T).1.messages (targetChatId s T)
      = priorMsgs s ++ [userMsgOf T text, loadingMsgOf T] ∧
    (sendPhase1 s text T).1.activeChatId = some (targetChatId s T) ∧
    (sendPhase1 s text T).1.chats
      = updateChatSummary
          (match s.activeChatId with
           | none => (⟨T.tChatId, "New Chat", "", T.tChatTs⟩ : Chat) :: s.chats
           | some _ => s.chats)
          (targetChatId s T) text T.tTitleTs ∧
    (sendPhase1 s text T).1.loadingChatId = some (targetChatId s T) ∧
    (∀ k, k ≠ targetChatId s T →
       (sendPhase1 s text T).1.messages k = s.messages k) := by
  cases h : s.activeChatId with
  | none =>
      refine ⟨?_, ?_, ?_, ?_, ?_, ?_, ?_⟩
      · simp [sendPhase1, h, targetChatId]
      · simp [sendPhase1, h]
      · simp [sendPhase1, h, targetChatId, priorMsgs,
          getMsgs_appendMessage_self, getMsgs_setMsgs_self]
      · simp [sendPhase1, h, targetChatId]
      · simp [sendPhase1, h, targetChatId]
      · simp [sendPhase1, h, targetChatId]
      · intro k hk
        simp only [sendPhase1, h, targetChatId, Option.getD] at hk ⊢
        rw [appendMessage, setMsgs_other _ _ _ _ hk, setMsgs_other _ _ _ _ hk]
  | some cid =>
      refine ⟨?_, ?_, ?_, ?_, ?_, ?_, ?_⟩
      · simp [sendPhase1, h, targetChatId]
      · simp [sendPhase1, h]
      · simp [sendPhase1, h, targetChatId, priorMsgs,
          getMsgs_appendMessage_self]
      · simp [sendPhase1, h, targetChatId]
      · simp [sendPhase1, h, targetChatId]
      · simp [sendPhase1, h, targetChatId]
      · intro k hk
        simp only [sendPhase1, h, targetChatId, Option.getD] at hk ⊢
        rw [appendMessage, setMsgs_other _ _ _ _ hk, appendMessage,
          setMsgs_other _ _ _ _ hk]

/-! Shape of the chat sequence after a completed send. -/

theorem sendSuccess_after_phase1 (s : AppState) (text : String)
    (T : SendTimes) (reply lang : String) (tB tC : Nat)
    (hclock : T.tUserId ≤ T.tLoadBase)
    (hfresh : ∀ m ∈ priorMsgs s, m.id ≠ T.tLoadBase + 1) :
    getMsgs (sendSuccess (sendPhase1 s text T).1 (sendPhase1 s text T).2.1
        (sendPhase1 s text T).2.2 reply lang tB tC).messages
        (targetChatId s T)
      = priorMsgs s ++ [userMsgOf T text,
          resolvedMsgOf (T.tLoadBase + 1) reply lang tB] := by
  obtain ⟨h1, h2, h3, -, -, -, -⟩ := sendPhase1_spec s text T
  rw [h1, h2]
  have hmap : getMsgs (sendSuccess (sendPhase1 s text T).1 (targetChatId s T)
      (T.tLoadBase + 1) reply lang tB tC).messages (targetChatId s T)
      = (getMsgs (sendPhase1 s text T).1.messages (targetChatId s T)).map
          (fun (m : Message) =>
            if m.id = T.tLoadBase + 1 then
              resolvedMsgOf (T.tLoadBase + 1) reply lang tB
            else m) := by
    simp [sendSuccess, getMsgs_setMsgs_self]
  rw [hmap, h3, List.map_append, map_resolve_of_fresh _ _ _ hfresh]
  simp [userMsgOf, loadingMsgOf,
    Nat.ne_of_lt (Nat.lt_succ_of_le hclock)]

theorem sendFailure_after_phase1 (s : AppState) (text : String)
    (T : SendTimes) (errMsg : String) (tE : Nat)
    (hclock : T.tUserId ≤ T.tLoadBase)
    (hfresh : ∀ m ∈ priorMsgs s, m.id ≠ T.tLoadBase + 1) :
    getMsgs (sendFailure (sendPhase1 s text T).1 (sendPhase1 s text T).2.1
        (sendPhase1 s text T).2.2 errMsg tE).messages (targetChatId s T)
      = priorMsgs s ++ [userMsgOf T text,
          failedMsgOf (T.tLoadBase + 1) errMsg tE] := by
  obtain ⟨h1, h2, h3, -, -, -, -⟩ := sendPhase1_spec s text T
  rw [h1, h2]
  have hmap : getMsgs (sendFailure (sendPhase1 s text T).1 (targetChatId s T)
      (T.tLoadBase + 1) errMsg tE).messages (targetChatId s T)
      = (getMsgs (sendPhase1 s text T).1.messages (targetChatId s T)).map
          (fun (m : Message) =>
            if m.id = T.tLoadBase + 1 then
              failedMsgOf (T.tLoadBase + 1) errMsg tE
            else m) := by
    simp [sendFailure, getMsgs_setMsgs_self]
  rw [hmap, h3, List.map_append, map_resolve_of_fresh _ _ _ hfresh]
  simp [userMsgOf, loadingMsgOf,
    Nat.ne_of_lt (Nat.lt_succ_of_le hclock)]

theorem filter_id_after_send (s : AppState) (text : String) (T : SendTimes)
    (b : Message) (hclock : T.tUserId ≤ T.tLoadBase)
    (hfresh : ∀ m ∈ priorMsgs s, m.id ≠ T.tLoadBase + 1)
    (hb : b.id = T.tLoadBase + 1) :
    ((priorMsgs s ++ [userMsgOf T text, b]).filter
        (fun (m : Message) => m.id == T.tLoadBase + 1)).length = 1 := by
  rw [List.filter_append, filter_id_nil_of_fresh _ _ hfresh]
  have hne : (T.tUserId == T.tLoadBase + 1) = false := by
    simp [Nat.ne_of_lt (Nat.lt_succ_of_le hclock)]
  simp [List.filter, userMsgOf, hb, hne]

/-- Concrete times used to instantiate claim C1: the user message id is
read at clock 10 and the placeholder base at clock 11. -/
def c1Times : SendTimes := ⟨0, 0, 10, 10, 10, 11, 11⟩

/-- Concrete starting state used to instantiate claim C1. -/
def c1State : AppState :=
  ⟨[⟨1, "Health", "old", 0⟩], some 1, setMsgs (fun _ => none) 1 [], none⟩

/-- Claim C1: after a completed send, whether the backend call resolved
or rejected, the chat sequence is the prior messages followed by exactly
one user message and one bot message contributed by that send, the bot
message carries the id of the loading placeholder created during the
send, and exactly one message in the sequence bears that id: the
placeholder is replaced in place, never duplicated and never left
alongside the resolved message. -/
theorem completed_send_one_user_one_bot (s : AppState) (text : String)
    (T : SendTimes) (reply lang errMsg : String) (tB tC tE : Nat)
    (hclock : T.tUserId ≤ T.tLoadBase)
    (hfresh : ∀ m ∈ priorMsgs s, m.id ≠ T.tLoadBase + 1) :
    getMsgs (sendSuccess (sendPhase1 s text T).1 (sendPhase1 s text T).2.1
        (sendPhase1 s text T).2.2 reply lang tB tC).messages
        (targetChatId s T)
      = priorMsgs s ++ [userMsgOf T text,
          resolvedMsgOf (T.tLoadBase + 1) reply lang tB] ∧
    getMsgs (sendFailure (sendPhase1 s text T).1 (sendPhase1 s text T).2.1
        (sendPhase1 s text T).2.2 errMsg tE).messages (targetChatId s T)
      = priorMsgs s ++ [userMsgOf T text,
          failedMsgOf (T.tLoadBase + 1) errMsg tE] ∧
    (resolvedMsgOf (T.tLoadBase + 1) reply lang tB).id = (sendPhase1 s text T).2.2 ∧
    (failedMsgOf (T.tLoadBase + 1) errMsg tE).id = (sendPhase1 s text T).2.2 ∧
    ((priorMsgs s ++ [userMsgOf T text,
        resolvedMsgOf (T.tLoadBase + 1) reply lang tB]).filter
        (fun (m : Message) => m.id == T.tLoadBase + 1)).length = 1 ∧
    ((priorMsgs s ++ [userMsgOf T text,
        failedMsgOf (T.tLoadBase + 1) errMsg tE]).filter
        (fun (m : Message) => m.id == T.tLoadBase + 1)).length = 1 := by
  refine ⟨sendSuccess_after_phase1 s text T reply lang tB tC hclock hfresh,
    sendFailure_after_phase1 s text T errMsg tE hclock hfresh,
    (sendPhase1_spec s text T).2.1.symm,
    (sendPhase1_spec s text T).2.1.symm,
    filter_id_after_send s text T _ hclock hfresh rfl,
    filter_id_after_send s text T _ hclock hfresh rfl⟩

/-- Claim C1 witness: the theorem instantiated at a concrete state, text
and clock readings, with both hypotheses discharged by computation. -/
theorem completed_send_one_user_one_bot_witness :
    getMsgs (sendSuccess (sendPhase1 c1State "hi" c1Times).1
        (sendPhase1 c1State "hi" c1Times).2.1
        (sendPhase1 c1State "hi" c1Times).2.2 "reply" "en" 13 13).messages
        (targetChatId c1State c1Times)
      = priorMsgs c1State ++ [userMsgOf c1Times "hi",
          resolvedMsgOf 12 "reply" "en" 13] :=
  (completed_send_one_user_one_bot c1State "hi" c1Times "reply" "en" "boom"
    13 13 14 (by decide) (by decide)).1

/-- Concrete times used to instantiate claim C3. -/
def c3Times : SendTimes := ⟨0, 0, 10, 10, 10, 11, 11⟩

/-- Concrete starting state used for claim C3: one custom-titled chat
whose last message is "old", active, with an empty message sequence. -/
def c3State : AppState :=
  ⟨[⟨1, "Health", "old", 0⟩], some 1, setMsgs (fun _ => none) 1 [], none⟩

/-- Claim C3 counterexample: sending "hi" on a chat whose previous last
message was "old" and then failing the backend call leaves the chat
summary with lastMessage "hi", not the pre-send value "old": the
summary update performed before the backend call already changed it,
so the summary is not unchanged from its values before the send began. -/
theorem failed_send_summary_not_presend :
    (sendFailure (sendPhase1 c3State "hi" c3Times).1
        (sendPhase1 c3State "hi" c3Times).2.1
        (sendPhase1 c3State "hi" c3Times).2.2 "boom" 12).chats.map
        Chat.lastMessage = ["hi"] ∧
    c3State.chats.map Chat.lastMessage = ["old"] := by
  exact ⟨by decide, by decide⟩

/-- Claim C3 amended: on failure the placeholder is replaced, matched by
its id, with a bot message embedding the failure message, and the
failure continuation leaves the chat collection exactly as the
synchronous prefix of the send left it (where the pre-call summary
update had already stored the sent text): no summary update with any
reply happens on the failure path. -/
theorem failed_send_replaces_placeholder_skips_summary (s : AppState)
    (text : String) (T : SendTimes) (errMsg : String) (tE : Nat)
    (hclock : T.tUserId ≤ T.tLoadBase)
    (hfresh : ∀ m ∈ priorMsgs s, m.id ≠ T.tLoadBase + 1) :
    (sendFailure (sendPhase1 s text T).1 (sendPhase1 s text T).2.1
        (sendPhase1 s text T).2.2 errMsg tE).chats
      = (sendPhase1 s text T).1.chats ∧
    getMsgs (sendFailure (sendPhase1 s text T).1 (sendPhase1 s text T).2.1
        (sendPhase1 s text T).2.2 errMsg tE).messages (targetChatId s T)
      = priorMsgs s ++ [userMsgOf T text,
          failedMsgOf (T.tLoadBase + 1) errMsg tE] ∧
    (failedMsgOf (T.tLoadBase + 1) errMsg tE).id = (sendPhase1 s text T).2.2 ∧
    (failedMsgOf (T.tLoadBase + 1) errMsg tE).text
      = "Sorry, I encountered an error: " ++ errMsg ++
        ". Please make sure the backend server is running." :=
  ⟨rfl, sendFailure_after_phase1 s text T errMsg tE hclock hfresh,
    (sendPhase1_spec s text T).2.1.symm, rfl⟩

/-- Claim C3 witness: the amended theorem instantiated at the concrete
state and clock readings, hypotheses discharged by computation. -/
theorem failed_send_replaces_placeholder_skips_summary_witness :
    getMsgs (sendFailure (sendPhase1 c3State "hi" c3Times).1
        (sendPhase1 c3State "hi" c3Times).2.1
        (sendPhase1 c3State "hi" c3Times).2.2 "boom" 12).messages
        (targetChatId c3State c3Times)
      = priorMsgs c3State ++ [userMsgOf c3Times "hi",
          failedMsgOf 12 "boom" 12] :=
  (failed_send_replaces_placeholder_skips_summary c3State "hi" c3Times
    "boom" 12 (by decide) (by decide)).2.1

/-- Concrete times of the first send used for claim C4. -/
def c4TimesA : SendTimes := ⟨0, 0, 10, 10, 10, 11, 11⟩

/-- Concrete times of the second send used for claim C4. -/
def c4TimesB : SendTimes := ⟨0, 0, 20, 20, 20, 21, 21⟩

/-- Concrete starting state used for claim C4. -/
def c4State : AppState :=
  ⟨[⟨1, "Health", "", 0⟩], some 1, setMsgs (fun _ => none) 1 [], none⟩

/-- Claim C4 counterexample: issuing a second send on the same chat
before the first send resolves reaches a state whose chat sequence
holds two isLoading placeholders at once; nothing in the code sequences
one send after another. -/
theorem two_pending_sends_two_placeholders :
    countLoading (getMsgs (sendsPhase1Fold c4State
        [("a", c4TimesA), ("b", c4TimesB)]).messages 1) = 2 := by
  decide

/-- Claim C4 amended: each send contributes at most one loading
placeholder, so under sequential sends the invariant holds: starting
from a chat with no loading message, the synchronous prefix of a send
leaves exactly one loading message, and completing that send (success
or failure) leaves none; only overlapping sends can make two
placeholders coexist. -/
theorem one_placeholder_per_sequential_send (s : AppState) (text : String)
    (T : SendTimes) (reply lang errMsg : String) (tB tC tE : Nat)
    (hclock : T.tUserId ≤ T.tLoadBase)
    (hfresh : ∀ m ∈ priorMsgs s, m.id ≠ T.tLoadBase + 1)
    (hzero : countLoading (priorMsgs s) = 0) :
    countLoading (getMsgs (sendPhase1 s text T).1.messages
        (targetChatId s T)) = 1 ∧
    countLoading (getMsgs (sendSuccess (sendPhase1 s text T).1
        (sendPhase1 s text T).2.1 (sendPhase1 s text T).2.2 reply lang
        tB tC).messages (targetChatId s T)) = 0 ∧
    countLoading (getMsgs (sendFailure (sendPhase1 s text T).1
        (sendPhase1 s text T).2.1 (sendPhase1 s text T).2.2 errMsg
        tE).messages (targetChatId s T)) = 0 := by
  refine ⟨?_, ?_, ?_⟩
  · rw [(sendPhase1_spec s text T).2.2.1, countLoading_append, hzero]
    simp [countLoading, List.filter, userMsgOf, loadingMsgOf]
  · rw [sendSuccess_after_phase1 s text T reply lang tB tC hclock hfresh,
      countLoading_append, hzero]
    simp [countLoading, List.filter, userMsgOf, resolvedMsgOf]
  · rw [sendFailure_after_phase1 s text T errMsg tE hclock hfresh,
      countLoading_append, hzero]
    simp [countLoading, List.filter, userMsgOf, failedMsgOf]

/-- Claim C4 witness: the amended theorem instantiated at a concrete
state, hypotheses discharged by computation. -/
theorem one_placeholder_per_sequential_send_witness :
    countLoading (getMsgs (sendPhase1 c4State "a" c4TimesA).1.messages
        (targetChatId c4State c4TimesA)) = 1 :=
  (one_placeholder_per_sequential_send c4State "a" c4TimesA "r" "en" "e"
    13 13 14 (by decide) (by decide) (by decide)).1

/-- Claim C5: applying the chat summary update to a matching chat whose
title is still the default "New Chat", with a text longer than 30
characters, sets the title to exactly the first 30 characters of the
text followed by the truncation marker "..." and sets lastMessage to
the full text; applying it to a matching chat whose title is no longer
the default leaves the title (and id) unchanged and updates only
lastMessage and timestamp. -/
theorem updateChatSummary_title_rule (chat : Chat) (cid : Nat)
    (text : String) (ts : Nat) (hid : chat.id = cid) :
    (chat.title = "New Chat" → text.length > 30 →
       updateChatSummaryEntry cid text ts chat
         = { chat with
               title := text.take 30 ++ "...",
               lastMessage := text,
               timestamp := ts }) ∧
    (chat.title ≠ "New Chat" →
       updateChatSummaryEntry cid text ts chat
         = { chat with lastMessage := text, timestamp := ts }) := by
  constructor
  · intro h1 h2
    simp [updateChatSummaryEntry, hid, h1, h2]
  · intro h1
    simp [updateChatSummaryEntry, hid, h1]

set_option maxRecDepth 4000 in
/-- Claim C5 witness: a default-titled chat with a 31-character text
gets the 30-character truncated title with marker and the full text as
lastMessage; a custom-titled chat keeps its title. -/
theorem updateChatSummary_title_rule_witness :
    updateChatSummaryEntry 1 "aaaaaaaaaaaaaaaaaaaaaaaaaaaaaaa" 5
        ⟨1, "New Chat", "", 0⟩
      = ⟨1, "aaaaaaaaaaaaaaaaaaaaaaaaaaaaaa...",
          "aaaaaaaaaaaaaaaaaaaaaaaaaaaaaaa", 5⟩ ∧
    updateChatSummaryEntry 1 "hello" 5 ⟨1, "Custom", "old", 0⟩
      = ⟨1, "Custom", "hello", 5⟩ := by
  constructor
  · exact ((updateChatSummary_title_rule ⟨1, "New Chat", "", 0⟩ 1
      "aaaaaaaaaaaaaaaaaaaaaaaaaaaaaaa" 5 rfl).1 rfl (by decide)).trans
      (by decide)
  · exact ((updateChatSummary_title_rule ⟨1, "Custom", "old", 0⟩ 1
      "hello" 5 rfl).2 (by decide)).trans (by decide)

/-- Claim C7: when a recognition session ends with a non-empty trimmed
accumulated transcript, a send of that transcript is emitted with the
language obtained by mapping the selected recognition tag ("en-US" to
"en", "hi-IN" to "hi", "te-IN" to "te", anything else to "en"), and the
transcript buffer and input are cleared afterward. -/
theorem recognition_end_submits_transcript (st : RecState) (tag : String)
    (h : jsTrim st.finalTranscript ≠ "") :
    recognitionOnEnd st tag
      = (⟨false, "", ""⟩, some (jsTrim st.finalTranscript, langMap tag)) ∧
    langMap "en-US" = "en" ∧ langMap "hi-IN" = "hi" ∧
    langMap "te-IN" = "te" ∧
    (tag ≠ "en-US" → tag ≠ "hi-IN" → tag ≠ "te-IN" → langMap tag = "en") := by
  refine ⟨?_, by decide, by decide, by decide, ?_⟩
  · simp [recognitionOnEnd, h]
  · intro h1 h2 h3
    simp [langMap, h1, h2, h3]

set_option maxRecDepth 4000 in
/-- Claim C7 witness: ending a session with accumulated transcript
"what are the symptoms of fever " and tag "hi-IN" emits a send of the
trimmed transcript with backend language "hi" and clears the buffer. -/
theorem recognition_end_submits_transcript_witness :
    recognitionOnEnd ⟨true, "buf", "what are the symptoms of fever "⟩
        "hi-IN"
      = (⟨false, "", ""⟩, some ("what are the symptoms of fever", "hi")) :=
  ((recognition_end_submits_transcript
      ⟨true, "buf", "what are the symptoms of fever "⟩ "hi-IN"
      (by decide)).1).trans (by decide)

/-- Concrete times used to instantiate claim C9. -/
def c9Times : SendTimes := ⟨0, 0, 10, 10, 10, 11, 11⟩

/-- Concrete starting state used to instantiate claim C9. -/
def c9State : AppState :=
  ⟨[⟨1, "Health", "", 0⟩], some 1, setMsgs (fun _ => none) 1 [], none⟩

/-- Claim C9: every send appends the loading placeholder as a bot
message with isLoading true and empty text, and, the clock readings
being non-decreasing, its id (one more than a reading taken after the
user message id was read) differs from the user message id. -/
theorem placeholder_loading_and_distinct_id (s : AppState) (text : String)
    (T : SendTimes) (hclock : T.tUserId ≤ T.tLoadBase) :
    getMsgs (sendPhase1 s text T).1.messages (targetChatId s T)
      = priorMsgs s ++ [userMsgOf T text, loadingMsgOf T] ∧
    (loadingMsgOf T).isLoading = true ∧
    (loadingMsgOf T).text = "" ∧
    (loadingMsgOf T).sender = Sender.bot ∧
    (loadingMsgOf T).id ≠ (userMsgOf T text).id := by
  refine ⟨(sendPhase1_spec s text T).2.2.1, rfl, rfl, rfl, ?_⟩
  exact (Nat.lt_succ_of_le hclock).ne'

/-- Claim C9 witness: the theorem instantiated at a concrete state and
non-decreasing clock readings. -/
theorem placeholder_loading_and_distinct_id_witness :
    getMsgs (sendPhase1 c9State "hi" c9Times).1.messages
        (targetChatId c9State c9Times)
      = priorMsgs c9State ++ [userMsgOf c9Times "hi", loadingMsgOf c9Times] ∧
    (loadingMsgOf c9Times).isLoading = true ∧
    (loadingMsgOf c9Times).text = "" ∧
    (loadingMsgOf c9Times).sender = Sender.bot ∧
    (loadingMsgOf c9Times).id ≠ (userMsgOf c9Times "hi").id :=
  placeholder_loading_and_distinct_id c9State "hi" c9Times (by decide)

/-- Claim C10: resolving a placeholder, on success or on failure, is a
pure in-place substitution on the chat sequence: the sequence after is
the pointwise image of the sequence before under a function that is the
identity on every message whose id differs from the placeholder id, the
length is preserved, and the sequences of all other chats are untouched. -/
theorem resolution_is_in_place_substitution (s : AppState) (cid lid : Nat)
    (reply lang errMsg : String) (tB tC tE : Nat) :
    (∃ f, getMsgs (sendSuccess s cid lid reply lang tB tC).messages cid
            = (getMsgs s.messages cid).map f
        ∧ ∀ m : Message, m.id ≠ lid → f m = m) ∧
    (getMsgs (sendSuccess s cid lid reply lang tB tC).messages cid).length
        = (getMsgs s.messages cid).length ∧
    (∃ g, getMsgs (sendFailure s cid lid errMsg tE).messages cid
            = (getMsgs s.messages cid).map g
        ∧ ∀ m : Message, m.id ≠ lid → g m = m) ∧
    (getMsgs (sendFailure s cid lid errMsg tE).messages cid).length
        = (getMsgs s.messages cid).length ∧
    (∀ k, k ≠ cid →
        (sendSuccess s cid lid reply lang tB tC).messages k = s.messages k) ∧
    (∀ k, k ≠ cid →
        (sendFailure s cid lid errMsg tE).messages k = s.messages k) := by
  refine ⟨⟨fun (m : Message) =>
      if m.id = lid then resolvedMsgOf lid reply lang tB else m, ?_, ?_⟩,
    ?_, ⟨fun (m : Message) =>
      if m.id = lid then failedMsgOf lid errMsg tE else m, ?_, ?_⟩,
    ?_, ?_, ?_⟩
  · simp [sendSuccess, getMsgs_setMsgs_self]
  · intro m hm; simp [hm]
  · simp [sendSuccess, getMsgs_setMsgs_self]
  · simp [sendFailure, getMsgs_setMsgs_self]
  · intro m hm; simp [hm]
  · simp [sendFailure, getMsgs_setMsgs_self]
  · intro k hk
    simp [sendSuccess, setMsgs_other _ _ _ _ hk]
  · intro k hk
    simp [sendFailure, setMsgs_other _ _ _ _ hk]

/-- Concrete state used to instantiate the claim C10 witness. -/
def c10State : AppState :=
  ⟨[⟨1, "Health", "", 0⟩], some 1,
    setMsgs (fun _ => none) 1 [⟨10, "hi", Sender.user, 10, false, none⟩,
      ⟨12, "", Sender.bot, 11, true, none⟩], none⟩

/-- Claim C10 witness: the frame conjunct of the theorem instantiated
at a concrete state, the side condition discharged by computation. -/
theorem resolution_is_in_place_substitution_witness :
    (sendSuccess c10State 1 12 "reply" "en" 13 13).messages 2
      = c10State.messages 2 :=
  (resolution_is_in_place_substitution c10State 1 12 "reply" "en" "boom"
    13 13 14).2.2.2.2.1 2 (by decide)

/-- Claim C6 counterexample: a completed network call with a success
status whose body fails to parse as JSON (a rejected `response.json()`)
still makes `chatAPI.sendMessage` fail, so failures are not exactly the
transport failures plus the non-success statuses. -/
theorem chatAPI_fails_on_bad_body_despite_success_status :
    chatAPISendMessage (fun _ =>
        FetchResult.ok 200 (Except.error "Unexpected end of JSON input"))
      = Except.error "Failed to get response: Unexpected end of JSON input" :=
  rfl

/-- Claim C6 amended: the send operation reads only the first fetch
outcome (a single HTTP attempt, no retries); it returns the parsed
reply and language exactly when the status is in the success range and
the body parses; it fails when the network call cannot complete, when
the status is non-success, or when a success response body fails to
parse as JSON; and in every failure case the surfaced error is the
single normalized message "Failed to get response: " followed by the
underlying cause (the thrown HTTP-status error text or the original
error message). -/
theorem chatAPI_single_attempt_and_normalized_errors
    (f g : Nat → FetchResult) (status : Nat)
    (body : Except String ChatResponse) (m e : String)
    (data : ChatResponse) :
    (f 0 = g 0 → chatAPISendMessage f = chatAPISendMessage g) ∧
    (f 0 = FetchResult.ok status (Except.ok data) → responseOk status = true →
       chatAPISendMessage f = Except.ok data) ∧
    (f 0 = FetchResult.ok status body → responseOk status = false →
       chatAPISendMessage f = Except.error
         ("Failed to get response: HTTP error! status: " ++ toString status)) ∧
    (f 0 = FetchResult.networkError m →
       chatAPISendMessage f = Except.error ("Failed to get response: " ++ m)) ∧
    (f 0 = FetchResult.ok status (Except.error e) → responseOk status = true →
       chatAPISendMessage f = Except.error ("Failed to get response: " ++ e)) ∧
    (∀ d : ChatResponse, chatAPISendMessage f = Except.ok d →
       ∃ st, f 0 = FetchResult.ok st (Except.ok d) ∧ responseOk st = true) := by
  refine ⟨?_, ?_, ?_, ?_, ?_, ?_⟩
  · intro h
    simp [chatAPISendMessage, h]
  · intro h hok
    simp [chatAPISendMessage, h, hok]
  · intro h hok
    simp [chatAPISendMessage, h, hok]
  · intro h
    simp [chatAPISendMessage, h]
  · intro h hok
    simp [chatAPISendMessage, h, hok]
  · intro d hd
    cases hf : f 0 with
    | networkError msg =>
        simp [chatAPISendMessage, hf] at hd
    | ok st bd =>
        by_cases hok : responseOk st = true
        · cases bd with
          | ok d2 =>
              simp [chatAPISendMessage, hf, hok] at hd
              exact ⟨st, by rw [hd], hok⟩
          | error e2 =>
              simp [chatAPISendMessage, hf, hok] at hd
        · simp [chatAPISendMessage, hf, hok] at hd

/-- Claim C6 witness: the amended theorem applied to a concrete fetch
oracle with a success response, its hypotheses computed away. -/
theorem chatAPI_single_attempt_and_normalized_errors_witness :
    chatAPISendMessage (fun _ => FetchResult.ok 200
        (Except.ok ⟨"reply text", "en"⟩))
      = Except.ok ⟨"reply text", "en"⟩ :=
  (chatAPI_single_attempt_and_normalized_errors
    (fun _ => FetchResult.ok 200 (Except.ok ⟨"reply text", "en"⟩))
    (fun _ => FetchResult.ok 200 (Except.ok ⟨"reply text", "en"⟩))
    200 (Except.ok ⟨"reply text", "en"⟩) "m" "e"
    ⟨"reply text", "en"⟩).2.1 rfl (by decide)

/-- The message used in the claim C8 counterexample. -/
def c8Msg : Message := ⟨9, "hello", Sender.user, 3, false, none⟩

/-- Claim C8 counterexample: appending a message under a chat id that is
not a key of the conversation map is not a no-op: the unknown key is
created and the message stored under it, so the map changes at that key. -/
theorem appendMessage_unknown_key_not_noop :
    appendMessage (fun _ => none) 5 c8Msg 5 = some [c8Msg] ∧
    (fun _ => (none : Option (List Message))) 5 ≠ some [c8Msg] := by
  constructor
  · simp [appendMessage, setMsgs, getMsgs]
  · simp

/-- Claim C8 amended: appending a message under a chat id that is not a
key of the conversation map creates a new entry for that id holding
exactly that message (the missing sequence defaulting to empty), and
leaves the sequence of every other chat id unchanged. -/
theorem appendMessage_unknown_key_creates_entry (m : MsgMap) (k : Nat)
    (msg : Message) (h : m k = none) :
    appendMessage m k msg k = some [msg] ∧
    ∀ q, q ≠ k → appendMessage m k msg q = m q := by
  constructor
  · simp [appendMessage, setMsgs, getMsgs, h]
  · intro q hq
    exact setMsgs_other _ _ _ _ hq

/-- Claim C8 witness: the amended theorem applied to the empty map at
key 7, its hypothesis discharged by computation. -/
theorem appendMessage_unknown_key_creates_entry_witness :
    appendMessage (fun _ => none) 7 c8Msg 7 = some [c8Msg] :=
  (appendMessage_unknown_key_creates_entry (fun _ => none) 7 c8Msg rfl).1

/-! Sequences of sends and the single chat they create. -/

theorem sendPhase1_active (s : AppState) (cid : Nat) (text : String)
    (T : SendTimes) (h : s.activeChatId = some cid) :
    (sendPhase1 s text T).1.activeChatId = some cid ∧
    getMsgs (sendPhase1 s text T).1.messages cid
      = getMsgs s.messages cid ++ [userMsgOf T text, loadingMsgOf T] ∧
    (sendPhase1 s text T).1.chats
      = updateChatSummary s.chats cid text T.tTitleTs := by
  have ht : targetChatId s T = cid := by simp [targetChatId, h]
  obtain ⟨-, -, h3, h4, h5, -, -⟩ := sendPhase1_spec s text T
  rw [ht] at h3 h4 h5
  refine ⟨h4, ?_, ?_⟩
  · rw [h3]
    simp [priorMsgs, h]
  · rw [h5, h]

theorem sendsPhase1Fold_active (calls : List (String × SendTimes)) :
    ∀ (s : AppState) (cid : Nat) (c : Chat) (cs : List Chat),
    s.activeChatId = some cid → s.chats = c :: cs → c.id = cid →
    (∀ x ∈ cs, x.id ≠ cid) →
    (sendsPhase1Fold s calls).activeChatId = some cid ∧
    getMsgs (sendsPhase1Fold s calls).messages cid
      = getMsgs s.messages cid ++ concatAll (calls.map callMsgs) ∧
    ∃ c2 : Chat, (sendsPhase1Fold s calls).chats = c2 :: cs ∧ c2.id = cid := by
  induction calls with
  | nil =>
      intro s cid c cs h1 h2 h3 h4
      exact ⟨h1, by simp [sendsPhase1Fold, concatAll], ⟨c, h2, h3⟩⟩
  | cons call rest ih =>
      intro s cid c cs h1 h2 h3 h4
      obtain ⟨ha, hm, hc⟩ := sendPhase1_active s cid call.1 call.2 h1
      have hch : (sendPhase1 s call.1 call.2).1.chats
          = updateChatSummaryEntry cid call.1 call.2.tTitleTs c :: cs := by
        rw [hc, h2, updateChatSummary_cons,
          updateChatSummary_of_all_ne _ _ _ _ h4]
      have hid2 : (updateChatSummaryEntry cid call.1 call.2.tTitleTs c).id
          = cid := by
        rw [updateChatSummaryEntry_id]
        exact h3
      obtain ⟨ra, rm, rc⟩ :=
        ih (sendPhase1 s call.1 call.2).1 cid _ cs ha hch hid2 h4
      refine ⟨ra, ?_, rc⟩
      have hfold : sendsPhase1Fold s (call :: rest)
          = sendsPhase1Fold (sendPhase1 s call.1 call.2).1 rest := rfl
      rw [hfold, rm, hm]
      simp [concatAll, callMsgs, List.append_assoc]

/-- Claim C2: a sequence of sends starting with no active chat creates
exactly one new chat: it is created with the default title "New Chat"
and prepended to the chat collection before the first summary update
retitles it, it becomes and stays the active chat, the existing chats
are untouched, and the target chat's sequence is exactly the messages
of the calls concatenated in call order, with the first user message
seeded as its first entry. -/
theorem sends_with_no_active_chat (s : AppState) (firstText : String)
    (firstT : SendTimes) (rest : List (String × SendTimes))
    (hactive : s.activeChatId = none)
    (hfresh : ∀ c ∈ s.chats, c.id ≠ firstT.tChatId) :
    (sendPhase1 s firstText firstT).1.chats
      = updateChatSummaryEntry firstT.tChatId firstText firstT.tTitleTs
          ⟨firstT.tChatId, "New Chat", "", firstT.tChatTs⟩ :: s.chats ∧
    (sendsPhase1Fold s ((firstText, firstT) :: rest)).activeChatId
      = some firstT.tChatId ∧
    (∃ c2 : Chat, (sendsPhase1Fold s ((firstText, firstT) :: rest)).chats
        = c2 :: s.chats ∧ c2.id = firstT.tChatId) ∧
    getMsgs (sendsPhase1Fold s ((firstText, firstT) :: rest)).messages
        firstT.tChatId
      = concatAll (((firstText, firstT) :: rest).map callMsgs) ∧
    (getMsgs (sendsPhase1Fold s ((firstText, firstT) :: rest)).messages
        firstT.tChatId).head? = some (userMsgOf firstT firstText) := by
  have ht : targetChatId s firstT = firstT.tChatId := by
    simp [targetChatId, hactive]
  obtain ⟨-, -, h3, h4, h5, -, -⟩ := sendPhase1_spec s firstText firstT
  rw [ht] at h3 h4 h5
  have hch : (sendPhase1 s firstText firstT).1.chats
      = updateChatSummaryEntry firstT.tChatId firstText firstT.tTitleTs
          ⟨firstT.tChatId, "New Chat", "", firstT.tChatTs⟩ :: s.chats := by
    rw [h5]
    simp only [hactive]
    rw [updateChatSummary_cons, updateChatSummary_of_all_ne _ _ _ _ hfresh]
  have hid2 : (updateChatSummaryEntry firstT.tChatId firstText
      firstT.tTitleTs ⟨firstT.tChatId, "New Chat", "", firstT.tChatTs⟩).id
      = firstT.tChatId := by
    rw [updateChatSummaryEntry_id]
  have hmsg1 : getMsgs (sendPhase1 s firstText firstT).1.messages
      firstT.tChatId = callMsgs (firstText, firstT) := by
    rw [h3]
    simp [priorMsgs, hactive, callMsgs]
  obtain ⟨ra, rm, rc⟩ := sendsPhase1Fold_active rest
    (sendPhase1 s firstText firstT).1 firstT.tChatId _ s.chats h4 hch
    hid2 hfresh
  have hfold : sendsPhase1Fold s ((firstText, firstT) :: rest)
      = sendsPhase1Fold (sendPhase1 s firstText firstT).1 rest := rfl
  refine ⟨hch, ?_, ?_, ?_, ?_⟩
  · rw [hfold]
    exact ra
  · rw [hfold]
    exact rc
  · rw [hfold, rm, hmsg1]
    simp [concatAll]
  · rw [hfold, rm, hmsg1]
    simp [concatAll, callMsgs]

/-- Concrete times of the first send used for the claim C2 witness. -/
def c2TimesA : SendTimes := ⟨5, 5, 10, 10, 10, 11, 11⟩

/-- Concrete times of the second send used for the claim C2 witness. -/
def c2TimesB : SendTimes := ⟨0, 0, 20, 20, 20, 21, 21⟩

/-- The empty starting state used for the claim C2 witness. -/
def c2State : AppState := ⟨[], none, fun _ => none, none⟩

/-- Claim C2 witness: two sends starting from the empty state with no
active chat land all four contributed messages, in call order, in the
single chat created by the first send, which is and stays active. -/
theorem sends_with_no_active_chat_witness :
    (sendsPhase1Fold c2State [("a", c2TimesA), ("b", c2TimesB)]).activeChatId
      = some 5 ∧
    getMsgs (sendsPhase1Fold c2State
        [("a", c2TimesA), ("b", c2TimesB)]).messages 5
      = concatAll ([("a", c2TimesA), ("b", c2TimesB)].map callMsgs) :=
  ⟨(sends_with_no_active_chat c2State "a" c2TimesA [("b", c2TimesB)] rfl
      (by simp [c2State])).2.1,
   (sends_with_no_active_chat c2State "a" c2TimesA [("b", c2TimesB)] rfl
      (by simp [c2State])).2.2.2.1⟩

end SwasthAI
